import Mathlib

/-!
Verification of the TradeNote local persistence layer ("Local Store").

The repository keeps two near-duplicate versions of the store:
the plain one in `src/lib/localDatabase.ts`, and the indexed, logging,
cascade-delete-aware one embedded in `src/pages/AIStrategyBuilder.tsx`
(the version the documentation designates as authoritative).  Both wrap
a SQLite database reached through a connection handle.

This development shallowly embeds those classes:

* each SQLite table is a `List` of row structures whose fields mirror the
  `CREATE TABLE` columns (TEXT as `String`, nullable columns as `Option`,
  REAL as `Rat`, INTEGER as `Int`);
* the JSON serialization of composite columns (`tags`, `preferences`) is
  modelled by the wrapper `JsonText`, whose constructor plays the role of
  `JSON.stringify` and whose projection plays the role of `JSON.parse`,
  capturing exactly the round-trip property the store relies on;
* `crypto.randomUUID()` is modelled as an injective supply of fresh
  identifiers indexed by a counter threaded through the store state;
* JavaScript truthiness checks (`x || null`, `if (filters?.type)`) are
  embedded explicitly: `""` is a falsy string, `0` a falsy number;
* async methods become pure functions `Store → ... → Except String _`;
  a thrown `Error(msg)` becomes `.error msg`.
-/

/-- A TEXT column holding the JSON serialization of a value of type `α`.
`jsonStringify` models `JSON.stringify` and `jsonParse` models `JSON.parse`;
together they capture the round-trip identity the store relies on. -/
structure JsonText (α : Type) where
  val : α
deriving DecidableEq

/-- Models `JSON.stringify` at the store boundary. -/
def jsonStringify {α : Type} (a : α) : JsonText α := ⟨a⟩

/-- Models `JSON.parse` of a column previously written by `JSON.stringify`. -/
def jsonParse {α : Type} (t : JsonText α) : α := t.val

/-- JavaScript truthy-or-null coalescing for an optional string:
`undefined` and `""` are falsy and collapse to `null`/absent. -/
def truthyStr : Option String → Option String
  | none => none
  | some s => if s = "" then none else some s

/-- JavaScript truthy-or-null coalescing for an optional number:
`undefined` and `0` are falsy and collapse to `null`/absent
(models the `x || null` pattern). -/
def truthyNum : Option Rat → Option Rat
  | none => none
  | some v => if v = 0 then none else some v

/-- JavaScript truthiness for an optional integer (pagination fields):
`undefined` and `0` are falsy. -/
def truthyInt : Option Int → Option Int
  | none => none
  | some v => if v = 0 then none else some v

/-- Models `crypto.randomUUID()` as an injective supply of fresh
identifiers: call number `n` of the process returns identifier `genId n`,
distinct from every other generated identifier.  (Real UUIDs are random;
their collision-freedom is exactly the property modelled here.) -/
def genId (n : Nat) : String := String.mk ('#' :: List.replicate n '#')

/-- Nested `preferences` record of a `User` (stored JSON-encoded). -/
structure Preferences where
  theme : String
  notifications : Bool
  defaultCurrency : String
deriving DecidableEq

/-- Row of the `users` table. -/
structure UserRow where
  id : String
  email : String
  name : String
  password : Option String
  tradingStyle : String
  riskTolerance : String
  experienceLevel : String
  preferences : JsonText Preferences
  createdAt : String
  updatedAt : String
deriving DecidableEq

/-- The `User` interface (decoded form handed to/returned to callers). -/
structure User where
  id : String
  email : String
  name : String
  password : Option String
  tradingStyle : String
  riskTolerance : String
  experienceLevel : String
  preferences : Preferences
  createdAt : String
  updatedAt : String
deriving DecidableEq

/-- Row of the `trades` table. -/
structure TradeRow where
  id : String
  symbol : String
  type : String
  entryPrice : Rat
  exitPrice : Option Rat
  quantity : Rat
  entryDate : String
  exitDate : Option String
  profit : Option Rat
  notes : Option String
  tags : Option (JsonText (List String))
  confidence : Option Int
  mood : Option String
  stopLoss : Option Rat
  takeProfit : Option Rat
  screenshot : Option String
  strategy : Option String
  market : Option String
  session : Option String
  createdAt : String
  updatedAt : String
deriving DecidableEq

/-- The `Trade` interface.  On input to `createTrade`/`updateTrade` the
optional fields may be absent; on output from `getTrades` the `tags`
field is always present (decoded, `null` read back as `[]`). -/
structure Trade where
  id : Option String
  symbol : String
  type : String
  entryPrice : Rat
  exitPrice : Option Rat
  quantity : Rat
  entryDate : String
  exitDate : Option String
  profit : Option Rat
  notes : Option String
  tags : Option (List String)
  confidence : Option Int
  mood : Option String
  stopLoss : Option Rat
  takeProfit : Option Rat
  screenshot : Option String
  strategy : Option String
  market : Option String
  session : Option String
  createdAt : String
  updatedAt : String
deriving DecidableEq

/-- Row of the `watchlist` table. -/
structure WatchRow where
  id : String
  symbol : String
  name : Option String
  currentPrice : Option Rat
  change : Option Rat
  changePercent : Option Rat
  addedAt : String
deriving DecidableEq

/-- The `WatchlistItem` interface. -/
structure WatchlistItem where
  id : Option String
  symbol : String
  name : Option String
  currentPrice : Option Rat
  change : Option Rat
  changePercent : Option Rat
  addedAt : String
deriving DecidableEq

/-- The `value` field of an `Alert` is `number | string` in the source;
`toText` models JavaScript `value.toString()`. -/
inductive AlertValue where
  | num (v : Rat)
  | str (s : String)
deriving DecidableEq

/-- Models `alert.value.toString()`. -/
def AlertValue.toText : AlertValue → String
  | .num v => toString v
  | .str s => s

/-- Row of the `alerts` table (`isActive` stored as INTEGER 0/1). -/
structure AlertRow where
  id : String
  symbol : String
  type : String
  condition : String
  value : String
  message : String
  isActive : Int
  createdAt : String
deriving DecidableEq

/-- The `Alert` interface. -/
structure Alert where
  id : Option String
  symbol : String
  type : String
  condition : String
  value : AlertValue
  message : String
  isActive : Bool
  createdAt : String
deriving DecidableEq

/-- Row of the `performance_metrics` table.  The `sharpe` field embeds the
`sharpeRatio` column of the source schema. -/
structure MetricRow where
  id : String
  date : String
  totalTrades : Int
  winningTrades : Int
  losingTrades : Int
  totalProfit : Rat
  totalLoss : Rat
  winRate : Rat
  profitFactor : Rat
  averageWin : Rat
  averageLoss : Rat
  maxDrawdown : Rat
  sharpe : Rat
  createdAt : String
deriving DecidableEq

/-- Caller-facing metrics object accepted by `savePerformanceMetrics`
(typed `any` in the source; every numeric field is defaulted with
`|| 0` before storage, and `date` is always read).  The `sharpe` field
embeds the `sharpeRatio` property. -/
structure Metrics where
  date : String
  totalTrades : Option Int
  winningTrades : Option Int
  losingTrades : Option Int
  totalProfit : Option Rat
  totalLoss : Option Rat
  winRate : Option Rat
  profitFactor : Option Rat
  averageWin : Option Rat
  averageLoss : Option Rat
  maxDrawdown : Option Rat
  sharpe : Option Rat
deriving DecidableEq

/-- Contents of the on-disk database file `tradenote`; `schemaExecCount`
counts how many schema-creation statements (`CREATE TABLE IF NOT EXISTS`,
`CREATE INDEX IF NOT EXISTS`) have been executed against the file. -/
structure DBFile where
  users : List UserRow
  trades : List TradeRow
  watchlist : List WatchRow
  alerts : List AlertRow
  metrics : List MetricRow
  schemaExecCount : Nat
deriving DecidableEq

/-- State of a `LocalDatabase` instance together with its database file.
`connOpen` is `this.db !== null`; `engineOpen` records whether the
underlying SQLite connection is actually open (it differs from `connOpen`
after the indexed version's `close`, which closes the engine connection
without nulling `this.db`); `isInitialized` is the instance flag;
`uuidCtr` indexes the fresh-identifier supply; `clock` is the value the
next `new Date().toISOString()` returns. -/
structure Store where
  disk : DBFile
  connOpen : Bool
  engineOpen : Bool
  isInitialized : Bool
  uuidCtr : Nat
  clock : String
deriving DecidableEq

/-- Filter object accepted by `getTrades` (every field optional). -/
structure TradeFilters where
  symbol : Option String := none
  type : Option String := none
  startDate : Option String := none
  endDate : Option String := none
  tags : Option (List String) := none
  limit : Option Int := none
  offset : Option Int := none
deriving DecidableEq

/-- Message of the error thrown by every data operation whose
`if (!this.db) throw new Error('Database not initialized')` guard fires. -/
def uninitMsg : String := "Database not initialized"

/-- Models the error text the SQLite engine produces when a statement is
run on a connection that has been closed.  Exact wording belongs to the
external engine; the store code never produces `uninitMsg` for it. -/
def engineClosedMsg : String := "Connection tradenote is closed"

/-- Models the SQLite parse error for an `OFFSET` clause appearing without
a `LIMIT` clause (the query builder appends `OFFSET ?` even when no
`LIMIT ?` was appended, which is not valid SQLite syntax). -/
def offsetSyntaxMsg : String := "near OFFSET: syntax error"

/-- Decoding of a `users` row as done by `getUser`/`getUsers`:
the row is spread and `preferences` replaced by `JSON.parse` of the column. -/
def decodeUserRow (r : UserRow) : User :=
  { id := r.id, email := r.email, name := r.name, password := r.password,
    tradingStyle := r.tradingStyle, riskTolerance := r.riskTolerance,
    experienceLevel := r.experienceLevel,
    preferences := jsonParse r.preferences,
    createdAt := r.createdAt, updatedAt := r.updatedAt }

/-- Decoding of a `trades` row as done by `getTrades` in the indexed
version: `tags: trade.tags ? JSON.parse(trade.tags) : []`. -/
def decodeTradeRow (r : TradeRow) : Trade :=
  { id := some r.id, symbol := r.symbol, type := r.type,
    entryPrice := r.entryPrice, exitPrice := r.exitPrice,
    quantity := r.quantity, entryDate := r.entryDate,
    exitDate := r.exitDate, profit := r.profit, notes := r.notes,
    tags := some (match r.tags with
      | some t => jsonParse t
      | none => []),
    confidence := r.confidence, mood := r.mood, stopLoss := r.stopLoss,
    takeProfit := r.takeProfit, screenshot := r.screenshot,
    strategy := r.strategy, market := r.market, session := r.session,
    createdAt := r.createdAt, updatedAt := r.updatedAt }

/-- Decoding of a `watchlist` row (`getWatchlist` returns rows as-is). -/
def decodeWatchRow (r : WatchRow) : WatchlistItem :=
  { id := some r.id, symbol := r.symbol, name := r.name,
    currentPrice := r.currentPrice, change := r.change,
    changePercent := r.changePercent, addedAt := r.addedAt }

/-- Decoding of an `alerts` row as done by `getAlerts` in the indexed
version: `isActive: Boolean(alert.isActive)`; the `value` column reads
back as the stored text. -/
def decodeAlertRow (r : AlertRow) : Alert :=
  { id := some r.id, symbol := r.symbol, type := r.type,
    condition := r.condition, value := .str r.value,
    message := r.message, isActive := r.isActive ≠ 0,
    createdAt := r.createdAt }

/-- Insertion step of the model of SQL `ORDER BY key DESC`. -/
def insertDescBy {α : Type} (key : α → String) (r : α) : List α → List α
  | [] => [r]
  | x :: xs =>
      if key x ≤ key r then r :: x :: xs else x :: insertDescBy key r xs

/-- Model of SQL `ORDER BY key DESC` (insertion sort; SQLite guarantees
nothing about the relative order of ties, and no theorem below depends
on it). -/
def sortDescBy {α : Type} (key : α → String) : List α → List α
  | [] => []
  | x :: xs => insertDescBy key x (sortDescBy key xs)

/-- The conjunction of the predicates `getTrades` actually appends to the
query: each filter contributes only when its value is truthy (a supplied
empty string is falsy in `if (filters?.type)` and is skipped). -/
def rowMatches (f : TradeFilters) (r : TradeRow) : Bool :=
  (match truthyStr f.symbol with
    | none => true
    | some v => decide (r.symbol = v)) &&
  (match truthyStr f.type with
    | none => true
    | some v => decide (r.type = v)) &&
  (match truthyStr f.startDate with
    | none => true
    | some v => decide (v ≤ r.entryDate)) &&
  (match truthyStr f.endDate with
    | none => true
    | some v => decide (r.entryDate ≤ v))

/-- Application of the `LIMIT ?` / `OFFSET ?` clauses that `getTrades`
appends only for truthy values.  SQLite applies `OFFSET` before `LIMIT`;
a negative `LIMIT` means unlimited and a negative `OFFSET` skips nothing;
an `OFFSET` clause without a `LIMIT` clause is a SQLite syntax error. -/
def applyLimitOffset {α : Type} (xs : List α) (lim off : Option Int) :
    Except String (List α) :=
  match truthyInt lim, truthyInt off with
  | none, none => .ok xs
  | some l, none => .ok (if l < 0 then xs else xs.take l.toNat)
  | some l, some o =>
      let ys := if o < 0 then xs else xs.drop o.toNat
      .ok (if l < 0 then ys else ys.take l.toNat)
  | none, some _ => .error offsetSyntaxMsg

/-- Snapshot object produced by the indexed version's `exportData` and
consumed by `importData`. -/
structure Snapshot where
  version : String
  exportDate : String
  users : List User
  trades : List Trade
  watchlist : List WatchlistItem
  alerts : List Alert
  performanceMetrics : List MetricRow
deriving DecidableEq

namespace Indexed

/-- Shared shape of every data method of the indexed `LocalDatabase`:
the `if (!this.db) throw new Error('Database not initialized')` guard runs
first (outside the `try`); inside the `try`, any failure — engine level or
constraint level — is caught and re-thrown wrapped in the method's
`Failed to ...:` message. -/
def runOp {α : Type} (wrapMsg : String) (s : Store)
    (body : Except String α) : Except String α :=
  if s.connOpen = false then .error uninitMsg
  else if s.engineOpen = false then .error (wrapMsg ++ engineClosedMsg)
  else
    match body with
    | .error e => .error (wrapMsg ++ e)
    | .ok a => .ok a

/-- Encoding of a `User` performed by `createUser` before the INSERT:
`password || null` and `JSON.stringify(preferences)`. -/
def encodeUserRow (u : User) : UserRow :=
  { id := u.id, email := u.email, name := u.name,
    password := truthyStr u.password,
    tradingStyle := u.tradingStyle, riskTolerance := u.riskTolerance,
    experienceLevel := u.experienceLevel,
    preferences := jsonStringify u.preferences,
    createdAt := u.createdAt, updatedAt := u.updatedAt }

/-- Embeds `createUser`: plain INSERT; violating the `id` primary key or
the UNIQUE `email` column surfaces as a constraint error. -/
def createUser (s : Store) (u : User) : Except String Store :=
  runOp "Failed to create user: " s <|
    let row := encodeUserRow u
    if s.disk.users.any (fun r => decide (r.id = row.id)) then
      .error "UNIQUE constraint failed: users.id"
    else if s.disk.users.any (fun r => decide (r.email = row.email)) then
      .error "UNIQUE constraint failed: users.email"
    else .ok { s with disk := { s.disk with users := s.disk.users ++ [row] } }

/-- Embeds `getUser` (`SELECT * FROM users WHERE id = ?`, first row or
`null`, preferences decoded). -/
def getUser (s : Store) (id : String) : Except String (Option User) :=
  runOp "Failed to get user: " s <|
    match s.disk.users.filter (fun r => decide (r.id = id)) with
    | [] => .ok none
    | r :: _ => .ok (some (decodeUserRow r))

/-- Embeds `getUserByName` (`SELECT * FROM users WHERE name = ?`). -/
def getUserByName (s : Store) (name : String) : Except String (Option User) :=
  runOp "Failed to get user by name: " s <|
    match s.disk.users.filter (fun r => decide (r.name = name)) with
    | [] => .ok none
    | r :: _ => .ok (some (decodeUserRow r))

/-- Embeds `getUsers` (`SELECT * FROM users`, preferences decoded). -/
def getUsers (s : Store) : Except String (List User) :=
  runOp "Failed to get users: " s <|
    .ok (s.disk.users.map decodeUserRow)

/-- Column updates performed by `updateUser`'s UPDATE statement
(`id` and `createdAt` are not in the SET list). -/
def updateUserRow (u : User) (r : UserRow) : UserRow :=
  { r with
    email := u.email, name := u.name,
    password := truthyStr u.password,
    tradingStyle := u.tradingStyle, riskTolerance := u.riskTolerance,
    experienceLevel := u.experienceLevel,
    preferences := jsonStringify u.preferences,
    updatedAt := u.updatedAt }

/-- Embeds `updateUser` (`UPDATE users SET ... WHERE id = ?`); setting
`email` to another existing row's email violates the UNIQUE constraint. -/
def updateUser (s : Store) (u : User) : Except String Store :=
  runOp "Failed to update user: " s <|
    if (s.disk.users.any fun r => decide (r.id = u.id)) &&
       (s.disk.users.any fun r => decide (¬ r.id = u.id ∧ r.email = u.email)) then
      .error "UNIQUE constraint failed: users.email"
    else
      .ok { s with disk := { s.disk with
        users := s.disk.users.map fun r =>
          if r.id = u.id then updateUserRow u r else r } }

/-- Embeds `deleteUser`.  The source issues, in order,
`DELETE FROM trades WHERE id IN (SELECT id FROM users WHERE id = ?)`
and the same statement for `watchlist`, `alerts` and
`performance_metrics`, then `DELETE FROM users WHERE id = ?`.
Each subquery is evaluated against the (still unchanged) `users` table,
so the deleted rows of the four other tables are exactly those whose own
primary key occurs among the ids of users whose id equals `id`. -/
def deleteUser (s : Store) (id : String) : Except String Store :=
  runOp "Failed to delete user: " s <|
    let uids := (s.disk.users.filter fun r => decide (r.id = id)).map UserRow.id
    .ok { s with disk := { s.disk with
      trades := s.disk.trades.filter fun t => decide (t.id ∉ uids),
      watchlist := s.disk.watchlist.filter fun w => decide (w.id ∉ uids),
      alerts := s.disk.alerts.filter fun a => decide (a.id ∉ uids),
      metrics := s.disk.metrics.filter fun m => decide (m.id ∉ uids),
      users := s.disk.users.filter fun r => decide (¬ r.id = id) } }

/-- Encoding of a `Trade` performed by the indexed `createTrade` and
`updateTrade` before storage: every optional field goes through the
falsy-coalescing `x || null` (so `0` and `""` store as NULL), while
`tags` uses `trade.tags ? JSON.stringify(trade.tags) : null` (an array —
even an empty one — is truthy). -/
def encodeTradeRow (tid : String) (t : Trade) : TradeRow :=
  { id := tid, symbol := t.symbol, type := t.type,
    entryPrice := t.entryPrice, exitPrice := truthyNum t.exitPrice,
    quantity := t.quantity, entryDate := t.entryDate,
    exitDate := truthyStr t.exitDate, profit := truthyNum t.profit,
    notes := truthyStr t.notes,
    tags := (match t.tags with
      | some l => some (jsonStringify l)
      | none => none),
    confidence := truthyInt t.confidence, mood := truthyStr t.mood,
    stopLoss := truthyNum t.stopLoss, takeProfit := truthyNum t.takeProfit,
    screenshot := truthyStr t.screenshot, strategy := truthyStr t.strategy,
    market := truthyStr t.market, session := truthyStr t.session,
    createdAt := t.createdAt, updatedAt := t.updatedAt }

/-- Embeds the indexed `createTrade`
(`trade.id || crypto.randomUUID()`, then plain INSERT). -/
def createTrade (s : Store) (t : Trade) : Except String Store :=
  runOp "Failed to create trade: " s <|
    let idc : String × Nat :=
      match truthyStr t.id with
      | some i => (i, s.uuidCtr)
      | none => (genId s.uuidCtr, s.uuidCtr + 1)
    let row := encodeTradeRow idc.1 t
    if s.disk.trades.any (fun r => decide (r.id = row.id)) then
      .error "UNIQUE constraint failed: trades.id"
    else
      .ok { s with
        uuidCtr := idc.2,
        disk := { s.disk with trades := s.disk.trades ++ [row] } }

/-- Embeds the indexed `getTrades`: conjunctive predicates for each
truthy filter, `ORDER BY entryDate DESC`, optional `LIMIT ?` and
`OFFSET ?` clauses, and tag decoding of the result rows. -/
def getTrades (s : Store) (f : TradeFilters) : Except String (List Trade) :=
  runOp "Failed to get trades: " s <|
    match applyLimitOffset
        (sortDescBy TradeRow.entryDate (s.disk.trades.filter (rowMatches f)))
        f.limit f.offset with
    | .error e => .error e
    | .ok rows => .ok (rows.map decodeTradeRow)

/-- Embeds the indexed `updateTrade` (`UPDATE trades SET ... WHERE id = ?`;
a `null` id parameter matches no row). -/
def updateTrade (s : Store) (t : Trade) : Except String Store :=
  runOp "Failed to update trade: " s <|
    .ok { s with disk := { s.disk with
      trades := s.disk.trades.map fun r =>
        match t.id with
        | some i =>
            if r.id = i then
              { encodeTradeRow r.id t with createdAt := r.createdAt }
            else r
        | none => r } }

/-- Embeds `deleteTrade` (`DELETE FROM trades WHERE id = ?`). -/
def deleteTrade (s : Store) (id : String) : Except String Store :=
  runOp "Failed to delete trade: " s <|
    .ok { s with disk := { s.disk with
      trades := s.disk.trades.filter fun r => decide (¬ r.id = id) } }

/-- Embeds the indexed `addToWatchlist`: `INSERT OR REPLACE` keyed on the
`id` PRIMARY KEY (the `idx_watchlist_symbol` index is not UNIQUE, so the
symbol takes no part in conflict resolution); any existing row with the
same id is replaced, everything else is appended. -/
def addToWatchlist (s : Store) (item : WatchlistItem) : Except String Store :=
  runOp "Failed to add to watchlist: " s <|
    let idc : String × Nat :=
      match truthyStr item.id with
      | some i => (i, s.uuidCtr)
      | none => (genId s.uuidCtr, s.uuidCtr + 1)
    let row : WatchRow :=
      { id := idc.1, symbol := item.symbol,
        name := truthyStr item.name,
        currentPrice := truthyNum item.currentPrice,
        change := truthyNum item.change,
        changePercent := truthyNum item.changePercent,
        addedAt := item.addedAt }
    .ok { s with
      uuidCtr := idc.2,
      disk := { s.disk with
        watchlist :=
          (s.disk.watchlist.filter fun r => decide (¬ r.id = row.id)) ++ [row] } }

/-- Embeds `getWatchlist` (`SELECT * FROM watchlist ORDER BY addedAt DESC`;
rows returned as-is). -/
def getWatchlist (s : Store) : Except String (List WatchlistItem) :=
  runOp "Failed to get watchlist: " s <|
    .ok ((sortDescBy WatchRow.addedAt s.disk.watchlist).map decodeWatchRow)

/-- Embeds `removeFromWatchlist` (`DELETE FROM watchlist WHERE symbol = ?`). -/
def removeFromWatchlist (s : Store) (symbol : String) : Except String Store :=
  runOp "Failed to remove from watchlist: " s <|
    .ok { s with disk := { s.disk with
      watchlist := s.disk.watchlist.filter fun r => decide (¬ r.symbol = symbol) } }

/-- Embeds `createAlert` (`alert.id || crypto.randomUUID()`,
`value.toString()`, `isActive ? 1 : 0`, plain INSERT). -/
def createAlert (s : Store) (a : Alert) : Except String Store :=
  runOp "Failed to create alert: " s <|
    let idc : String × Nat :=
      match truthyStr a.id with
      | some i => (i, s.uuidCtr)
      | none => (genId s.uuidCtr, s.uuidCtr + 1)
    let row : AlertRow :=
      { id := idc.1, symbol := a.symbol, type := a.type,
        condition := a.condition, value := a.value.toText,
        message := a.message,
        isActive := if a.isActive then 1 else 0,
        createdAt := a.createdAt }
    if s.disk.alerts.any (fun r => decide (r.id = row.id)) then
      .error "UNIQUE constraint failed: alerts.id"
    else
      .ok { s with
        uuidCtr := idc.2,
        disk := { s.disk with alerts := s.disk.alerts ++ [row] } }

/-- Embeds the indexed `getAlerts` (`ORDER BY createdAt DESC`,
`isActive` decoded with `Boolean(...)`). -/
def getAlerts (s : Store) : Except String (List Alert) :=
  runOp "Failed to get alerts: " s <|
    .ok ((sortDescBy AlertRow.createdAt s.disk.alerts).map decodeAlertRow)

/-- Embeds `updateAlert` (`UPDATE alerts SET ... WHERE id = ?`). -/
def updateAlert (s : Store) (a : Alert) : Except String Store :=
  runOp "Failed to update alert: " s <|
    .ok { s with disk := { s.disk with
      alerts := s.disk.alerts.map fun r =>
        match a.id with
        | some i =>
            if r.id = i then
              { r with
                symbol := a.symbol, type := a.type,
                condition := a.condition, value := a.value.toText,
                message := a.message,
                isActive := if a.isActive then 1 else 0 }
            else r
        | none => r } }

/-- Embeds `deleteAlert` (`DELETE FROM alerts WHERE id = ?`). -/
def deleteAlert (s : Store) (id : String) : Except String Store :=
  runOp "Failed to delete alert: " s <|
    .ok { s with disk := { s.disk with
      alerts := s.disk.alerts.filter fun r => decide (¬ r.id = id) } }

/-- Embeds the indexed `savePerformanceMetrics`: `INSERT OR REPLACE` whose
id is always a freshly generated `crypto.randomUUID()` (the caller's id —
and the `date` — play no part in conflict resolution), numeric fields
defaulted with `|| 0`, `createdAt` set to `new Date().toISOString()`. -/
def savePerformanceMetrics (s : Store) (m : Metrics) : Except String Store :=
  runOp "Failed to save performance metrics: " s <|
    let mid := genId s.uuidCtr
    let row : MetricRow :=
      { id := mid, date := m.date,
        totalTrades := m.totalTrades.getD 0,
        winningTrades := m.winningTrades.getD 0,
        losingTrades := m.losingTrades.getD 0,
        totalProfit := m.totalProfit.getD 0,
        totalLoss := m.totalLoss.getD 0,
        winRate := m.winRate.getD 0,
        profitFactor := m.profitFactor.getD 0,
        averageWin := m.averageWin.getD 0,
        averageLoss := m.averageLoss.getD 0,
        maxDrawdown := m.maxDrawdown.getD 0,
        sharpe := m.sharpe.getD 0,
        createdAt := s.clock }
    .ok { s with
      uuidCtr := s.uuidCtr + 1,
      disk := { s.disk with
        metrics :=
          (s.disk.metrics.filter fun r => decide (¬ r.id = mid)) ++ [row] } }

/-- Embeds the indexed `getPerformanceMetrics` (truthy `startDate`/`endDate`
predicates, `ORDER BY date DESC`, raw rows). -/
def getPerformanceMetrics (s : Store) (startDate endDate : Option String) :
    Except String (List MetricRow) :=
  runOp "Failed to get performance metrics: " s <|
    .ok (sortDescBy MetricRow.date (s.disk.metrics.filter fun r =>
      (match truthyStr startDate with
        | none => true
        | some v => decide (v ≤ r.date)) &&
      (match truthyStr endDate with
        | none => true
        | some v => decide (r.date ≤ v))))

/-- Embeds the indexed `exportData`: reads all five tables through the
normal typed getters (so composite fields come back decoded) and bundles
them with the schema version tag and `new Date().toISOString()`. -/
def exportData (s : Store) : Except String Snapshot :=
  runOp "Failed to export data: " s <|
    match getUsers s with
    | .error e => .error e
    | .ok users =>
    match getTrades s {} with
    | .error e => .error e
    | .ok trades =>
    match getWatchlist s with
    | .error e => .error e
    | .ok watchlist =>
    match getAlerts s with
    | .error e => .error e
    | .ok alerts =>
    match getPerformanceMetrics s none none with
    | .error e => .error e
    | .ok metrics =>
      .ok { version := "1.0", exportDate := s.clock,
            users := users, trades := trades, watchlist := watchlist,
            alerts := alerts, performanceMetrics := metrics }

/-- The `for (const user of data.users || [])` loop of `importData`. -/
def importUsers : Store → List User → Except String Store
  | s, [] => .ok s
  | s, u :: us =>
      match createUser s u with
      | .error e => .error e
      | .ok s2 => importUsers s2 us

/-- The trades loop of `importData`. -/
def importTrades : Store → List Trade → Except String Store
  | s, [] => .ok s
  | s, t :: ts =>
      match createTrade s t with
      | .error e => .error e
      | .ok s2 => importTrades s2 ts

/-- The watchlist loop of `importData`. -/
def importWatchlist : Store → List WatchlistItem → Except String Store
  | s, [] => .ok s
  | s, w :: ws =>
      match addToWatchlist s w with
      | .error e => .error e
      | .ok s2 => importWatchlist s2 ws

/-- The alerts loop of `importData`. -/
def importAlerts : Store → List Alert → Except String Store
  | s, [] => .ok s
  | s, a :: as_ =>
      match createAlert s a with
      | .error e => .error e
      | .ok s2 => importAlerts s2 as_

/-- Adapter for the metrics loop of `importData`: the snapshot element is
a raw `performance_metrics` row passed as the `any`-typed metrics object
(every property present). -/
def metricRowToInput (r : MetricRow) : Metrics :=
  { date := r.date, totalTrades := some r.totalTrades,
    winningTrades := some r.winningTrades,
    losingTrades := some r.losingTrades,
    totalProfit := some r.totalProfit, totalLoss := some r.totalLoss,
    winRate := some r.winRate, profitFactor := some r.profitFactor,
    averageWin := some r.averageWin, averageLoss := some r.averageLoss,
    maxDrawdown := some r.maxDrawdown, sharpe := some r.sharpe }

/-- The performance-metrics loop of `importData`. -/
def importMetrics : Store → List MetricRow → Except String Store
  | s, [] => .ok s
  | s, m :: ms =>
      match savePerformanceMetrics s (Indexed.metricRowToInput m) with
      | .error e => .error e
      | .ok s2 => importMetrics s2 ms

/-- Embeds the indexed `importData`: deletes every row of all five tables
and then re-inserts each snapshot record through the normal per-entity
create path.  (A mid-import failure leaves the real database in a mixed
state; the `Except` threading here discards the partial state, which no
theorem below depends on.) -/
def importData (s : Store) (data : Snapshot) : Except String Store :=
  runOp "Failed to import data: " s <|
    match importUsers
      { s with
        disk := { s.disk with
          users := [], trades := [], watchlist := [], alerts := [],
          metrics := [] } } data.users with
    | .error e => .error e
    | .ok s1 =>
    match importTrades s1 data.trades with
    | .error e => .error e
    | .ok s2 =>
    match importWatchlist s2 data.watchlist with
    | .error e => .error e
    | .ok s3 =>
    match importAlerts s3 data.alerts with
    | .error e => .error e
    | .ok s4 => importMetrics s4 data.performanceMetrics

/-- Embeds the indexed `close`: when `this.db` is set it closes the engine
connection, but it neither nulls `this.db` nor clears `isInitialized`. -/
def close (s : Store) : Store :=
  if s.connOpen then { s with engineOpen := false } else s

/-- Embeds the indexed `initialize`: a no-op when `isInitialized` is
already set; otherwise it creates and opens the connection and runs
`createTables`, which executes five `CREATE TABLE IF NOT EXISTS` and five
`CREATE INDEX IF NOT EXISTS` statements (counted by `schemaExecCount`;
`IF NOT EXISTS` leaves existing table contents untouched), then sets the
flag. -/
def initStore (s : Store) : Store :=
  if s.isInitialized then s
  else
    { s with
      connOpen := true, engineOpen := true, isInitialized := true,
      disk := { s.disk with schemaExecCount := s.disk.schemaExecCount + 10 } }

end Indexed

namespace PlainDB

/-- Embeds the plain version's `close` (`src/lib/localDatabase.ts`):
closes the connection, nulls `this.db` and clears `isInitialized`. -/
def close (s : Store) : Store :=
  if s.connOpen then
    { s with engineOpen := false, connOpen := false, isInitialized := false }
  else s

/-- Embeds the plain version's `getTrades`: identical query building to
the indexed one, no try/catch wrapping, tags decoded with
`JSON.parse(trade.tags || '[]')`. -/
def getTrades (s : Store) (f : TradeFilters) : Except String (List Trade) :=
  if s.connOpen = false then .error uninitMsg
  else if s.engineOpen = false then .error engineClosedMsg
  else
    match applyLimitOffset
        (sortDescBy TradeRow.entryDate (s.disk.trades.filter (rowMatches f)))
        f.limit f.offset with
    | .error e => .error e
    | .ok rows => .ok (rows.map decodeTradeRow)

/-- Embeds the plain version's `createUser` (no try/catch wrapping). -/
def createUser (s : Store) (u : User) : Except String Store :=
  if s.connOpen = false then .error uninitMsg
  else if s.engineOpen = false then .error engineClosedMsg
  else
    let row := Indexed.encodeUserRow u
    if s.disk.users.any (fun r => decide (r.id = row.id)) then
      .error "UNIQUE constraint failed: users.id"
    else if s.disk.users.any (fun r => decide (r.email = row.email)) then
      .error "UNIQUE constraint failed: users.email"
    else .ok { s with disk := { s.disk with users := s.disk.users ++ [row] } }

end PlainDB

/-- The open/closed trade invariant stated by the documentation: a trade
is "closed" iff both its exit timestamp and its realized profit are
present. -/
def Trade.isClosed (t : Trade) : Bool :=
  t.exitDate.isSome && t.profit.isSome

theorem genId_inj {n m : Nat} (h : genId n = genId m) : n = m := by
  have h2 := congrArg (fun s => s.data.length) h
  simpa [genId] using h2

theorem insertDescBy_perm {α : Type} (key : α → String) (r : α) (l : List α) :
    (insertDescBy key r l).Perm (r :: l) := by
  induction l with
  | nil => simp [insertDescBy]
  | cons x xs ih =>
      by_cases h : key x ≤ key r
      · simp [insertDescBy, h]
      · simp only [insertDescBy, if_neg h]
        exact ((ih.cons x).trans (List.Perm.swap r x xs))

theorem sortDescBy_perm {α : Type} (key : α → String) (l : List α) :
    (sortDescBy key l).Perm l := by
  induction l with
  | nil => simp [sortDescBy]
  | cons x xs ih =>
      exact (insertDescBy_perm key x (sortDescBy key xs)).trans (ih.cons x)

theorem sortDescBy_length {α : Type} (key : α → String) (l : List α) :
    (sortDescBy key l).length = l.length :=
  (sortDescBy_perm key l).length_eq

theorem mem_sortDescBy {α : Type} {key : α → String} {l : List α} {a : α} :
    a ∈ sortDescBy key l ↔ a ∈ l :=
  (sortDescBy_perm key l).mem_iff

theorem runOp_ok_iff {α : Type} {w : String} {s : Store} {b : Except String α}
    {a : α} :
    Indexed.runOp w s b = .ok a ↔
      s.connOpen = true ∧ s.engineOpen = true ∧ b = .ok a := by
  unfold Indexed.runOp
  rcases hc : s.connOpen <;> rcases he : s.engineOpen <;>
    simp <;> cases b <;> simp

/-- A filter object with no field supplied matches every row. -/
theorem rowMatches_default (r : TradeRow) : rowMatches {} r = true := rfl

/-- Sample preferences record used by concrete scenarios below. -/
def samplePrefs : Preferences :=
  { theme := "dark", notifications := true, defaultCurrency := "USD" }

/-- Sample decoded user. -/
def sampleUser : User :=
  { id := "u1", email := "ann@example.com", name := "Ann", password := none,
    tradingStyle := "swing", riskTolerance := "low",
    experienceLevel := "beginner", preferences := samplePrefs,
    createdAt := "2024-01-01", updatedAt := "2024-01-01" }

/-- Sample stored user row. -/
def sampleUserRow : UserRow := Indexed.encodeUserRow sampleUser

/-- Sample stored trade row (an open buy of AAPL). -/
def sampleTradeRow : TradeRow :=
  { id := "t1", symbol := "AAPL", type := "buy", entryPrice := 150,
    exitPrice := none, quantity := 10, entryDate := "2024-01-01",
    exitDate := none, profit := none, notes := none, tags := none,
    confidence := none, mood := none, stopLoss := none, takeProfit := none,
    screenshot := none, strategy := none, market := none, session := none,
    createdAt := "2024-01-01", updatedAt := "2024-01-01" }

/-- Empty database file. -/
def emptyDisk : DBFile :=
  { users := [], trades := [], watchlist := [], alerts := [], metrics := [],
    schemaExecCount := 10 }

/-- A successfully initialized store over a given database file. -/
def openStore (d : DBFile) : Store :=
  { disk := d, connOpen := true, engineOpen := true, isInitialized := true,
    uuidCtr := 0, clock := "2024-02-02T00:00:00.000Z" }

/-- A store on which `initialize()` has not (successfully) run. -/
def uninitStore : Store :=
  { disk := emptyDisk, connOpen := false, engineOpen := false,
    isInitialized := false, uuidCtr := 0, clock := "2024-02-02T00:00:00.000Z" }

/-- Claim C9 (confirmed): `initialize()` is idempotent: after a first call
on an uninitialized store the second call is a no-op, the store state
after two sequential calls equals the state after one, and the ten schema
creation statements (five `CREATE TABLE IF NOT EXISTS`, five
`CREATE INDEX IF NOT EXISTS`) execute only during the first call. -/
theorem initialize_idempotent (s : Store) (h : s.isInitialized = false) :
    Indexed.initStore (Indexed.initStore s) = Indexed.initStore s ∧
    (Indexed.initStore s).disk.schemaExecCount = s.disk.schemaExecCount + 10 ∧
    (Indexed.initStore (Indexed.initStore s)).disk.schemaExecCount =
      s.disk.schemaExecCount + 10 := by
  refine ⟨?_, by simp [Indexed.initStore, h], ?_⟩
  · unfold Indexed.initStore
    by_cases h2 : s.isInitialized <;> simp [h2]
  · unfold Indexed.initStore
    simp [h]

/-- Witness for C9 at a concrete fresh store. -/
theorem initialize_idempotent_witness :
    Indexed.initStore (Indexed.initStore uninitStore) =
        Indexed.initStore uninitStore ∧
    (Indexed.initStore uninitStore).disk.schemaExecCount =
      uninitStore.disk.schemaExecCount + 10 ∧
    (Indexed.initStore (Indexed.initStore uninitStore)).disk.schemaExecCount =
      uninitStore.disk.schemaExecCount + 10 :=
  initialize_idempotent uninitStore rfl

/-- Store holding one user (id `u1`) and one trade (id `t1`), the failing
input for claim C1. -/
def c1Store : Store :=
  openStore { emptyDisk with
    users := [sampleUserRow], trades := [sampleTradeRow] }

/-- Claim C1 (code_bug): the cascade in `deleteUser` compares the OTHER
tables' own primary keys with the user id
(`DELETE FROM trades WHERE id IN (SELECT id FROM users WHERE id = ?)`),
so deleting user `u1` removes the user row but leaves the user's trade
`t1` (and any watchlist/alert/metric row whose id differs from `u1`) in
place, contradicting the code's own `Delete all user data` comment and
its `User and all associated data deleted successfully` log line. -/
theorem deleteUser_leaves_user_data :
    (Indexed.deleteUser c1Store "u1").toOption.map
        (fun s => (s.disk.users, s.disk.trades)) =
      some ([], [sampleTradeRow]) := by
  rfl

/-- Claim C7, counterexample: the indexed version's `close` closes the
engine connection but neither nulls `this.db` nor clears `isInitialized`,
so a subsequent `getTrades` does NOT fail with the uninitialized error
(it fails inside the `try` with the wrapped engine error instead). -/
theorem close_does_not_reset :
    (Indexed.close (openStore emptyDisk)).connOpen = true ∧
    (Indexed.close (openStore emptyDisk)).isInitialized = true ∧
    Indexed.getTrades (Indexed.close (openStore emptyDisk)) {} =
      .error ("Failed to get trades: " ++ engineClosedMsg) ∧
    "Failed to get trades: " ++ engineClosedMsg ≠ uninitMsg :=
  ⟨rfl, rfl, rfl, by decide⟩

/-- Claim C7 (corrected): in the plain store version
(`src/lib/localDatabase.ts`) `close` does release the handle and reset
the initialization flag, and every subsequent operation fails with the
uninitialized error until re-initialization. -/
theorem plain_close_resets (s : Store) (h : s.connOpen = true)
    (f : TradeFilters) (u : User) :
    (PlainDB.close s).connOpen = false ∧
    (PlainDB.close s).isInitialized = false ∧
    PlainDB.getTrades (PlainDB.close s) f = .error uninitMsg ∧
    PlainDB.createUser (PlainDB.close s) u = .error uninitMsg := by
  simp [PlainDB.close, h, PlainDB.getTrades, PlainDB.createUser]

/-- Witness for the amended C7 at a concrete initialized store. -/
theorem plain_close_resets_witness :
    (PlainDB.close (openStore emptyDisk)).connOpen = false ∧
    (PlainDB.close (openStore emptyDisk)).isInitialized = false ∧
    PlainDB.getTrades (PlainDB.close (openStore emptyDisk)) {} =
      .error uninitMsg ∧
    PlainDB.createUser (PlainDB.close (openStore emptyDisk)) sampleUser =
      .error uninitMsg :=
  plain_close_resets (openStore emptyDisk) rfl {} sampleUser

/-- Claim C10 (confirmed): in the indexed store version, `createTrade`
and `updateTrade` pass `profit` and `exitPrice` through the
falsy-coalescing `|| null`, so a value of exactly `0` is stored as NULL:
the created row carries no profit/exitPrice, the trade reads back with
`profit` absent, and a break-even closed trade (exitDate set, profit 0)
is no longer classified as closed by the open/closed invariant; the same
coalescing applies to every row touched by `updateTrade`. -/
theorem trade_zero_fields_store_null (s : Store) (t : Trade)
    (hp : t.profit = some 0) (hx : t.exitPrice = some 0) :
    (∀ tid,
      (Indexed.encodeTradeRow tid t).profit = none ∧
      (Indexed.encodeTradeRow tid t).exitPrice = none ∧
      (Indexed.encodeTradeRow tid t).exitDate = truthyStr t.exitDate ∧
      (decodeTradeRow (Indexed.encodeTradeRow tid t)).profit = none ∧
      Trade.isClosed (decodeTradeRow (Indexed.encodeTradeRow tid t)) = false) ∧
    (∀ s', Indexed.createTrade s t = .ok s' →
      ∃ tid, s'.disk.trades = s.disk.trades ++ [Indexed.encodeTradeRow tid t]) ∧
    (∀ s2, Indexed.updateTrade s t = .ok s2 → ∀ i, t.id = some i →
      ∀ r ∈ s2.disk.trades, r.id = i → r.profit = none ∧ r.exitPrice = none) := by
  refine ⟨?_, ?_, ?_⟩
  · intro tid
    simp [Indexed.encodeTradeRow, decodeTradeRow, truthyNum, hp, hx,
      Trade.isClosed]
  · intro s' h
    rw [Indexed.createTrade, runOp_ok_iff] at h
    obtain ⟨-, -, hbody⟩ := h
    simp only at hbody
    split at hbody
    · exact absurd hbody (by simp)
    · exact ⟨_, by injection hbody with h2; rw [← h2]⟩
  · intro s2 h i hi r hr hrid
    rw [Indexed.updateTrade, runOp_ok_iff] at h
    obtain ⟨-, -, hbody⟩ := h
    injection hbody with h2
    rw [← h2] at hr
    simp only [List.mem_map] at hr
    obtain ⟨r0, hr0, himg⟩ := hr
    rw [hi] at himg
    have himg2 : (if r0.id = i
        then ({ Indexed.encodeTradeRow r0.id t with
                createdAt := r0.createdAt } : TradeRow)
        else r0) = r := himg
    by_cases hid : r0.id = i
    · rw [if_pos hid] at himg2
      rw [← himg2]
      simp [Indexed.encodeTradeRow, truthyNum, hp, hx]
    · rw [if_neg hid] at himg2
      rw [← himg2] at hrid
      exact absurd hrid hid

/-- A break-even closed trade: exit fields set, realized profit exactly 0. -/
def breakEvenTrade : Trade :=
  { id := some "t2", symbol := "AAPL", type := "buy", entryPrice := 150,
    exitPrice := some 0, quantity := 10, entryDate := "2024-01-01",
    exitDate := some "2024-01-05", profit := some 0, notes := none,
    tags := none, confidence := none, mood := none, stopLoss := none,
    takeProfit := none, screenshot := none, strategy := none, market := none,
    session := none, createdAt := "2024-01-01", updatedAt := "2024-01-05" }

/-- Witness for C10: the concrete break-even trade stores NULL profit and
is not classified as closed after the round trip. -/
theorem trade_zero_fields_store_null_witness :
    breakEvenTrade.profit = some 0 ∧
    (Indexed.encodeTradeRow "t2" breakEvenTrade).profit = none ∧
    Trade.isClosed (decodeTradeRow (Indexed.encodeTradeRow "t2" breakEvenTrade))
      = false :=
  ⟨rfl,
   ((trade_zero_fields_store_null (openStore emptyDisk) breakEvenTrade rfl
      rfl).1 "t2").1,
   ((trade_zero_fields_store_null (openStore emptyDisk) breakEvenTrade rfl
      rfl).1 "t2").2.2.2.2⟩

/-- Claim C4, counterexample: on an uninitialized store both `getTrades`
and `createUser` fail with the one fixed message
`Database not initialized`, which names neither attempted operation
(neither `getTrades` nor `createUser` occurs in it). -/
theorem uninit_error_is_generic :
    Indexed.getTrades uninitStore {} = .error uninitMsg ∧
    Indexed.createUser uninitStore sampleUser = .error uninitMsg ∧
    ¬ ("getTrades".toList <:+: uninitMsg.toList) ∧
    ¬ ("createUser".toList <:+: uninitMsg.toList) :=
  ⟨rfl, rfl, by decide, by decide⟩

/-- Claim C4 (corrected): every store operation invoked while the store
is not initialized fails with an uninitialized error, but its message is
the one fixed string `Database not initialized` for every operation
(thrown before each method's try/catch, hence never wrapped and never
naming the operation). -/
theorem uninit_ops_fail_generic (s : Store) (h : s.connOpen = false)
    (u : User) (t : Trade) (w : WatchlistItem) (a : Alert) (m : Metrics)
    (snap : Snapshot) (f : TradeFilters) (id nm : String)
    (sd ed : Option String) :
    Indexed.createUser s u = .error uninitMsg ∧
    Indexed.getUser s id = .error uninitMsg ∧
    Indexed.getUserByName s nm = .error uninitMsg ∧
    Indexed.getUsers s = .error uninitMsg ∧
    Indexed.updateUser s u = .error uninitMsg ∧
    Indexed.deleteUser s id = .error uninitMsg ∧
    Indexed.createTrade s t = .error uninitMsg ∧
    Indexed.getTrades s f = .error uninitMsg ∧
    Indexed.updateTrade s t = .error uninitMsg ∧
    Indexed.deleteTrade s id = .error uninitMsg ∧
    Indexed.addToWatchlist s w = .error uninitMsg ∧
    Indexed.getWatchlist s = .error uninitMsg ∧
    Indexed.removeFromWatchlist s id = .error uninitMsg ∧
    Indexed.createAlert s a = .error uninitMsg ∧
    Indexed.getAlerts s = .error uninitMsg ∧
    Indexed.updateAlert s a = .error uninitMsg ∧
    Indexed.deleteAlert s id = .error uninitMsg ∧
    Indexed.savePerformanceMetrics s m = .error uninitMsg ∧
    Indexed.getPerformanceMetrics s sd ed = .error uninitMsg ∧
    Indexed.exportData s = .error uninitMsg ∧
    Indexed.importData s snap = .error uninitMsg ∧
    PlainDB.getTrades s f = .error uninitMsg ∧
    PlainDB.createUser s u = .error uninitMsg := by
  repeat' constructor
  all_goals
    simp [Indexed.createUser, Indexed.getUser, Indexed.getUserByName,
      Indexed.getUsers, Indexed.updateUser, Indexed.deleteUser,
      Indexed.createTrade, Indexed.getTrades, Indexed.updateTrade,
      Indexed.deleteTrade, Indexed.addToWatchlist, Indexed.getWatchlist,
      Indexed.removeFromWatchlist, Indexed.createAlert, Indexed.getAlerts,
      Indexed.updateAlert, Indexed.deleteAlert,
      Indexed.savePerformanceMetrics, Indexed.getPerformanceMetrics,
      Indexed.exportData, Indexed.importData, Indexed.runOp,
      PlainDB.getTrades, PlainDB.createUser, h]

/-- Witness for the amended C4 at a concrete uninitialized store. -/
theorem uninit_ops_fail_generic_witness :
    Indexed.getTrades uninitStore {} = .error uninitMsg ∧
    Indexed.exportData uninitStore = .error uninitMsg :=
  ⟨(uninit_ops_fail_generic uninitStore rfl sampleUser breakEvenTrade
      { id := none, symbol := "TSLA", name := none, currentPrice := none,
        change := none, changePercent := none, addedAt := "2024-01-01" }
      { id := none, symbol := "TSLA", type := "price", condition := "above",
        value := .num 100, message := "m", isActive := true,
        createdAt := "2024-01-01" }
      { date := "2024-01-01", totalTrades := none, winningTrades := none,
        losingTrades := none, totalProfit := none, totalLoss := none,
        winRate := none, profitFactor := none, averageWin := none,
        averageLoss := none, maxDrawdown := none, sharpe := none }
      { version := "1.0", exportDate := "", users := [], trades := [],
        watchlist := [], alerts := [], performanceMetrics := [] }
      {} "x" "Ann" none none).2.2.2.2.2.2.2.1,
   (uninit_ops_fail_generic uninitStore rfl sampleUser breakEvenTrade
      { id := none, symbol := "TSLA", name := none, currentPrice := none,
        change := none, changePercent := none, addedAt := "2024-01-01" }
      { id := none, symbol := "TSLA", type := "price", condition := "above",
        value := .num 100, message := "m", isActive := true,
        createdAt := "2024-01-01" }
      { date := "2024-01-01", totalTrades := none, winningTrades := none,
        losingTrades := none, totalProfit := none, totalLoss := none,
        winRate := none, profitFactor := none, averageWin := none,
        averageLoss := none, maxDrawdown := none, sharpe := none }
      { version := "1.0", exportDate := "", users := [], trades := [],
        watchlist := [], alerts := [], performanceMetrics := [] }
      {} "x" "Ann" none none).2.2.2.2.2.2.2.2.2.2.2.2.2.2.2.2.2.2.2.1⟩

/-- First watchlist add of TSLA (id omitted, as the UI add flow does). -/
def tslaItem1 : WatchlistItem :=
  { id := none, symbol := "TSLA", name := none, currentPrice := none,
    change := none, changePercent := none, addedAt := "2024-01-01" }

/-- Second watchlist add of the same symbol TSLA. -/
def tslaItem2 : WatchlistItem :=
  { tslaItem1 with addedAt := "2024-01-02" }

/-- Claim C2, counterexample: adding TSLA twice (fresh generated ids, the
normal add flow) leaves TWO watchlist rows with symbol TSLA, because
`INSERT OR REPLACE` conflicts only on the `id` PRIMARY KEY and the
`idx_watchlist_symbol` index is not UNIQUE. -/
theorem watchlist_add_twice_duplicates :
    ((Indexed.addToWatchlist (openStore emptyDisk) tslaItem1).bind
        (fun s1 => Indexed.addToWatchlist s1 tslaItem2)).toOption.map
      (fun s => (s.disk.watchlist.filter
        (fun r => decide (r.symbol = "TSLA"))).length) = some 2 := by
  rfl

/-- Characterization of a successful `addToWatchlist` whose item carries
an explicit (truthy) id `k`: the new table is the old one minus any row
with id `k`, plus the freshly encoded row at the end. -/
theorem addToWatchlist_ok_row (s : Store) (i : WatchlistItem) (k : String)
    (hk : ¬ k = "") (hid : i.id = some k) (s' : Store)
    (h : Indexed.addToWatchlist s i = .ok s') :
    ∃ row : WatchRow, row.id = k ∧ row.symbol = i.symbol ∧
      s'.disk.watchlist =
        (s.disk.watchlist.filter fun r => decide (¬ r.id = k)) ++ [row] := by
  rw [Indexed.addToWatchlist, runOp_ok_iff] at h
  obtain ⟨-, -, h⟩ := h
  simp only [hid, truthyStr, if_neg hk, Except.ok.injEq] at h
  exact ⟨_, rfl, rfl, by rw [← h]⟩

/-- Claim C2 (corrected): `addToWatchlist` upserts by the `id` primary
key, not by symbol: two adds carrying the same explicit id leave exactly
one row for the symbol (given no pre-existing row had that symbol), while
adds with distinct or omitted ids insert separate rows. -/
theorem addToWatchlist_upsert_by_id (s : Store) (i1 i2 : WatchlistItem)
    (sym k : String) (hk : ¬ k = "")
    (h1id : i1.id = some k) (h2id : i2.id = some k)
    (h1sym : i1.symbol = sym) (h2sym : i2.symbol = sym)
    (hno : ∀ r ∈ s.disk.watchlist, ¬ r.symbol = sym)
    (s1 s2 : Store)
    (ha : Indexed.addToWatchlist s i1 = .ok s1)
    (hb : Indexed.addToWatchlist s1 i2 = .ok s2) :
    (s2.disk.watchlist.filter (fun r => decide (r.symbol = sym))).length
      = 1 := by
  obtain ⟨row1, hr1id, -, hw1⟩ := addToWatchlist_ok_row s i1 k hk h1id s1 ha
  obtain ⟨row2, -, hr2sym, hw2⟩ := addToWatchlist_ok_row s1 i2 k hk h2id s2 hb
  have e1 : s1.disk.watchlist.filter (fun r => decide (¬ r.id = k)) =
      s.disk.watchlist.filter fun r => decide (¬ r.id = k) := by
    rw [hw1, List.filter_append, List.filter_filter]
    simp [hr1id]
  rw [hw2, e1, List.filter_append]
  rw [List.filter_eq_nil_iff.2, List.nil_append]
  · simp [hr2sym, h2sym]
  · intro r hr
    simp only [List.mem_filter] at hr
    simp [hno r hr.1]

/-- Watchlist item carrying an explicit id `w1`. -/
def tslaKeyed1 : WatchlistItem :=
  { tslaItem1 with id := some "w1" }

/-- Second item with the same explicit id `w1`. -/
def tslaKeyed2 : WatchlistItem :=
  { tslaItem2 with id := some "w1" }

/-- Store after the first keyed add. -/
def c2s1 : Store :=
  ((Indexed.addToWatchlist (openStore emptyDisk) tslaKeyed1).toOption).getD
    uninitStore

/-- Store after the second keyed add. -/
def c2s2 : Store :=
  ((Indexed.addToWatchlist c2s1 tslaKeyed2).toOption).getD uninitStore

/-- Witness for the amended C2 at a concrete pair of same-id adds. -/
theorem addToWatchlist_upsert_by_id_witness :
    (c2s2.disk.watchlist.filter (fun r => decide (r.symbol = "TSLA"))).length
      = 1 :=
  addToWatchlist_upsert_by_id (openStore emptyDisk) tslaKeyed1 tslaKeyed2
    "TSLA" "w1" (by decide) rfl rfl rfl rfl
    (by intro r hr; simp [openStore, emptyDisk] at hr) c2s1 c2s2 rfl rfl

/-- Metrics rollup for 2024-01-01 as a caller would pass it. -/
def sampleMetrics : Metrics :=
  { date := "2024-01-01", totalTrades := some 10, winningTrades := some 6,
    losingTrades := some 4, totalProfit := some 500, totalLoss := some 200,
    winRate := some 60, profitFactor := some 2, averageWin := some 83,
    averageLoss := some 50, maxDrawdown := some 120, sharpe := some 1 }

/-- Claim C3, counterexample: saving metrics for the same date twice
leaves TWO `performance_metrics` rows for that date, because each call
inserts under a freshly generated random id and the `REPLACE` conflict
can only ever fire on that id. -/
theorem metrics_save_twice_two_rows :
    Option.map
      (fun s => (s.disk.metrics.filter
        (fun r => decide (r.date = "2024-01-01"))).length)
      (Except.toOption
        ((Indexed.savePerformanceMetrics (openStore emptyDisk)
            sampleMetrics).bind
          (fun s1 => Indexed.savePerformanceMetrics s1 sampleMetrics)))
      = some 2 := by
  rfl

/-- Characterization of a successful `savePerformanceMetrics`: a row with
the freshly generated id and the call's date is appended after filtering
out any row with that (fresh) id, and the id counter advances. -/
theorem savePerformanceMetrics_ok_row (s : Store) (m : Metrics) (s' : Store)
    (h : Indexed.savePerformanceMetrics s m = .ok s') :
    ∃ row : MetricRow, row.id = genId s.uuidCtr ∧ row.date = m.date ∧
      s'.uuidCtr = s.uuidCtr + 1 ∧
      s'.disk.metrics =
        (s.disk.metrics.filter
          fun r => decide (¬ r.id = genId s.uuidCtr)) ++ [row] := by
  rw [Indexed.savePerformanceMetrics, runOp_ok_iff] at h
  obtain ⟨-, -, h⟩ := h
  simp only [Except.ok.injEq] at h
  exact ⟨_, rfl, rfl, by rw [← h], by rw [← h]⟩

/-- Claim C3 (corrected): `savePerformanceMetrics` has no upsert-by-date
semantics: every call inserts a new row under a fresh generated id, so
two calls with the same date leave two rows for that date (both calls'
values present), two more than before. -/
theorem savePerformanceMetrics_no_upsert_by_date (s : Store)
    (m1 m2 : Metrics) (d : String) (h1 : m1.date = d) (h2 : m2.date = d)
    (hf1 : ∀ r ∈ s.disk.metrics, ¬ r.id = genId s.uuidCtr)
    (hf2 : ∀ r ∈ s.disk.metrics, ¬ r.id = genId (s.uuidCtr + 1))
    (s1 s2 : Store)
    (ha : Indexed.savePerformanceMetrics s m1 = .ok s1)
    (hb : Indexed.savePerformanceMetrics s1 m2 = .ok s2) :
    (s2.disk.metrics.filter (fun r => decide (r.date = d))).length =
      (s.disk.metrics.filter (fun r => decide (r.date = d))).length + 2 := by
  obtain ⟨row1, hid1, hdate1, hctr1, hm1⟩ :=
    savePerformanceMetrics_ok_row s m1 s1 ha
  obtain ⟨row2, hid2, hdate2, hctr2, hm2⟩ :=
    savePerformanceMetrics_ok_row s1 m2 s2 hb
  have e0 : s.disk.metrics.filter
      (fun r => decide (¬ r.id = genId s.uuidCtr)) = s.disk.metrics :=
    List.filter_eq_self.2 (by intro r hr; simp [hf1 r hr])
  rw [e0] at hm1
  rw [hctr1] at hm2
  have e1 : s1.disk.metrics.filter
      (fun r => decide (¬ r.id = genId (s.uuidCtr + 1))) =
      s.disk.metrics ++ [row1] := by
    rw [hm1]
    apply List.filter_eq_self.2
    intro r hr
    rcases List.mem_append.1 hr with hmem | hmem
    · simp [hf2 r hmem]
    · simp only [List.mem_singleton] at hmem
      subst hmem
      simp only [hid1, decide_eq_true_eq]
      intro hEq
      have := genId_inj hEq
      omega
  rw [e1] at hm2
  rw [hm2]
  simp only [List.filter_append, List.length_append]
  have d1 : List.filter (fun r => decide (r.date = d)) [row1] = [row1] := by
    simp [hdate1, h1]
  have d2 : List.filter (fun r => decide (r.date = d)) [row2] = [row2] := by
    simp [hdate2, h2]
  rw [d1, d2]
  simp

/-- Store after the first metrics save. -/
def c3s1 : Store :=
  ((Indexed.savePerformanceMetrics (openStore emptyDisk)
      sampleMetrics).toOption).getD uninitStore

/-- Store after the second metrics save. -/
def c3s2 : Store :=
  ((Indexed.savePerformanceMetrics c3s1 sampleMetrics).toOption).getD
    uninitStore

/-- Witness for the amended C3 at a concrete pair of same-date saves. -/
theorem savePerformanceMetrics_no_upsert_witness :
    (c3s2.disk.metrics.filter
        (fun r => decide (r.date = "2024-01-01"))).length =
      ((openStore emptyDisk).disk.metrics.filter
        (fun r => decide (r.date = "2024-01-01"))).length + 2 :=
  savePerformanceMetrics_no_upsert_by_date (openStore emptyDisk)
    sampleMetrics sampleMetrics "2024-01-01" rfl rfl
    (by intro r hr; simp [openStore, emptyDisk] at hr)
    (by intro r hr; simp [openStore, emptyDisk] at hr)
    c3s1 c3s2 rfl rfl

/-- Characterization of `exportData` on an initialized store (shared by
several results below). -/
theorem exportData_eq (s : Store) (hc : s.connOpen = true)
    (he : s.engineOpen = true) :
    Indexed.exportData s = .ok
      { version := "1.0", exportDate := s.clock,
        users := s.disk.users.map decodeUserRow,
        trades :=
          (sortDescBy TradeRow.entryDate s.disk.trades).map decodeTradeRow,
        watchlist :=
          (sortDescBy WatchRow.addedAt s.disk.watchlist).map decodeWatchRow,
        alerts :=
          (sortDescBy AlertRow.createdAt s.disk.alerts).map decodeAlertRow,
        performanceMetrics := sortDescBy MetricRow.date s.disk.metrics } := by
  have hfil : s.disk.trades.filter (rowMatches {}) = s.disk.trades :=
    List.filter_eq_self.2 (fun r _ => rowMatches_default r)
  simp [Indexed.exportData, Indexed.runOp, Indexed.getUsers,
    Indexed.getTrades, Indexed.getWatchlist, Indexed.getAlerts,
    Indexed.getPerformanceMetrics, hc, he, hfil, applyLimitOffset,
    truthyInt, truthyStr]

/-- Claim C5 (confirmed): on an initialized store `exportData` returns
the snapshot `{ version, exportDate, users, trades, watchlist, alerts,
performanceMetrics }` built from the typed getters, with composite
fields (user preferences, trade tags) already decoded to structured
values rather than encoded text. -/
theorem exportData_shape (s : Store) (hc : s.connOpen = true)
    (he : s.engineOpen = true) :
    Indexed.exportData s = .ok
      { version := "1.0", exportDate := s.clock,
        users := s.disk.users.map decodeUserRow,
        trades :=
          (sortDescBy TradeRow.entryDate s.disk.trades).map decodeTradeRow,
        watchlist :=
          (sortDescBy WatchRow.addedAt s.disk.watchlist).map decodeWatchRow,
        alerts :=
          (sortDescBy AlertRow.createdAt s.disk.alerts).map decodeAlertRow,
        performanceMetrics := sortDescBy MetricRow.date s.disk.metrics } ∧
    (∀ r : UserRow, (decodeUserRow r).preferences = jsonParse r.preferences) ∧
    (∀ r : TradeRow, (decodeTradeRow r).tags =
      some (match r.tags with
        | some t => jsonParse t
        | none => ([] : List String))) :=
  ⟨exportData_eq s hc he, fun r => rfl, fun r => rfl⟩

/-- Witness for C5 at a concrete initialized store. -/
theorem exportData_shape_witness :
    Indexed.exportData c1Store = .ok
      { version := "1.0", exportDate := c1Store.clock,
        users := c1Store.disk.users.map decodeUserRow,
        trades := (sortDescBy TradeRow.entryDate c1Store.disk.trades).map
          decodeTradeRow,
        watchlist := (sortDescBy WatchRow.addedAt
          c1Store.disk.watchlist).map decodeWatchRow,
        alerts := (sortDescBy AlertRow.createdAt c1Store.disk.alerts).map
          decodeAlertRow,
        performanceMetrics :=
          sortDescBy MetricRow.date c1Store.disk.metrics } :=
  (exportData_shape c1Store rfl rfl).1

/-- Store holding a single buy trade, used for the C8 counterexample. -/
def c8Store : Store :=
  openStore { emptyDisk with trades := [sampleTradeRow] }

/-- Filter object whose `type` field is supplied but empty. -/
def c8Filters : TradeFilters := { type := some "" }

/-- Claim C8, counterexample: a supplied `type` filter whose value is the
empty string is skipped by the truthiness test `if (filters?.type)`, so
`getTrades` returns a trade whose type does not equal the filter value. -/
theorem type_filter_empty_ignored :
    Indexed.getTrades c8Store c8Filters =
      .ok [decodeTradeRow sampleTradeRow] ∧
    (decodeTradeRow sampleTradeRow).type = "buy" ∧ ¬ ("buy" = "") :=
  ⟨rfl, rfl, by decide⟩

/-- Decomposition of `rowMatches` into its four conjuncts. -/
theorem rowMatches_split {f : TradeFilters} {r : TradeRow}
    (hm : rowMatches f r = true) :
    (match truthyStr f.symbol with
      | none => true
      | some v => decide (r.symbol = v)) = true ∧
    (match truthyStr f.type with
      | none => true
      | some v => decide (r.type = v)) = true ∧
    (match truthyStr f.startDate with
      | none => true
      | some v => decide (v ≤ r.entryDate)) = true ∧
    (match truthyStr f.endDate with
      | none => true
      | some v => decide (r.entryDate ≤ v)) = true := by
  unfold rowMatches at hm
  rw [Bool.and_eq_true, Bool.and_eq_true, Bool.and_eq_true] at hm
  exact ⟨hm.1.1.1, hm.1.1.2, hm.1.2, hm.2⟩

/-- Soundness of a truthy type filter extracted from `rowMatches`. -/
theorem rowMatches_type_eq {f : TradeFilters} {r : TradeRow} {v : String}
    (hm : rowMatches f r = true) (hv : f.type = some v) (hne : ¬ v = "") :
    r.type = v := by
  have h2 := (rowMatches_split hm).2.1
  rw [hv] at h2
  simpa [truthyStr, if_neg hne] using h2

/-- Soundness of a truthy start-date filter extracted from `rowMatches`. -/
theorem rowMatches_startDate_le {f : TradeFilters} {r : TradeRow}
    {v : String} (hm : rowMatches f r = true) (hv : f.startDate = some v)
    (hne : ¬ v = "") : v ≤ r.entryDate := by
  have h2 := (rowMatches_split hm).2.2.1
  rw [hv] at h2
  simpa [truthyStr, if_neg hne] using h2

/-- Soundness of a truthy end-date filter extracted from `rowMatches`. -/
theorem rowMatches_endDate_le {f : TradeFilters} {r : TradeRow}
    {v : String} (hm : rowMatches f r = true) (hv : f.endDate = some v)
    (hne : ¬ v = "") : r.entryDate ≤ v := by
  have h2 := (rowMatches_split hm).2.2.2
  rw [hv] at h2
  simpa [truthyStr, if_neg hne] using h2

/-- Claim C8 (corrected): without pagination, `getTrades` returns exactly
the decoded trades whose rows pass every TRUTHY supplied filter: a
non-empty `type` filter admits only trades of that type, non-empty
`startDate`/`endDate` filters admit only trades whose `entryDate` lies
within the inclusive range, and an omitted filter field imposes no
constraint — but a supplied-yet-falsy field (empty string) is treated as
omitted. -/
theorem getTrades_filter_semantics (s : Store) (f : TradeFilters)
    (res : List Trade) (hl : f.limit = none) (ho : f.offset = none)
    (h : Indexed.getTrades s f = .ok res) :
    (∀ t ∈ res, ∀ v, f.type = some v → ¬ v = "" → t.type = v) ∧
    (∀ t ∈ res, ∀ v, f.startDate = some v → ¬ v = "" → v ≤ t.entryDate) ∧
    (∀ t ∈ res, ∀ v, f.endDate = some v → ¬ v = "" → t.entryDate ≤ v) ∧
    (∀ t, t ∈ res ↔
      ∃ r, r ∈ s.disk.trades ∧ rowMatches f r = true ∧
        decodeTradeRow r = t) := by
  rw [Indexed.getTrades, runOp_ok_iff] at h
  obtain ⟨-, -, h⟩ := h
  rw [hl, ho] at h
  have hres : res =
      (sortDescBy TradeRow.entryDate
        (s.disk.trades.filter (rowMatches f))).map decodeTradeRow := by
    simp only [applyLimitOffset, truthyInt, Except.ok.injEq] at h
    exact h.symm
  have hmem : ∀ t, t ∈ res ↔
      ∃ r, r ∈ s.disk.trades ∧ rowMatches f r = true ∧
        decodeTradeRow r = t := by
    intro t
    rw [hres]
    constructor
    · intro ht
      obtain ⟨r, hr, hdec⟩ := List.mem_map.1 ht
      rw [mem_sortDescBy] at hr
      obtain ⟨hr1, hr2⟩ := List.mem_filter.1 hr
      exact ⟨r, hr1, hr2, hdec⟩
    · intro ⟨r, hr1, hr2, hdec⟩
      exact List.mem_map.2 ⟨r,
        mem_sortDescBy.2 (List.mem_filter.2 ⟨hr1, hr2⟩), hdec⟩
  refine ⟨?_, ?_, ?_, hmem⟩
  · intro t ht v hv hne
    obtain ⟨r, -, hm, hdec⟩ := (hmem t).1 ht
    rw [← hdec]
    exact rowMatches_type_eq hm hv hne
  · intro t ht v hv hne
    obtain ⟨r, -, hm, hdec⟩ := (hmem t).1 ht
    rw [← hdec]
    exact rowMatches_startDate_le hm hv hne
  · intro t ht v hv hne
    obtain ⟨r, -, hm, hdec⟩ := (hmem t).1 ht
    rw [← hdec]
    exact rowMatches_endDate_le hm hv hne

/-- Witness for the amended C8: on the one-trade store with a `buy` type
filter, the returned collection is characterized exactly. -/
theorem getTrades_filter_semantics_witness :
    (∀ t ∈ [decodeTradeRow sampleTradeRow], ∀ v,
      ({ type := some "buy" } : TradeFilters).type = some v → ¬ v = "" →
        t.type = v) ∧
    (∀ t, t ∈ [decodeTradeRow sampleTradeRow] ↔
      ∃ r, r ∈ c8Store.disk.trades ∧
        rowMatches { type := some "buy" } r = true ∧
        decodeTradeRow r = t) :=
  ⟨(getTrades_filter_semantics c8Store { type := some "buy" }
      [decodeTradeRow sampleTradeRow] rfl rfl rfl).1,
   (getTrades_filter_semantics c8Store { type := some "buy" }
      [decodeTradeRow sampleTradeRow] rfl rfl rfl).2.2.2⟩

theorem createUser_ok {s : Store} {u : User} {s' : Store}
    (h : Indexed.createUser s u = .ok s') :
    s'.disk.users = s.disk.users ++ [Indexed.encodeUserRow u] ∧
    s'.disk.trades = s.disk.trades ∧
    s'.disk.watchlist = s.disk.watchlist ∧
    s'.disk.alerts = s.disk.alerts ∧
    s'.disk.metrics = s.disk.metrics := by
  rw [Indexed.createUser, runOp_ok_iff] at h
  obtain ⟨-, -, h⟩ := h
  simp only [] at h
  split at h
  · exact absurd h (by simp)
  · split at h
    · exact absurd h (by simp)
    · injection h with h
      rw [← h]
      exact ⟨rfl, rfl, rfl, rfl, rfl⟩

theorem createTrade_ok {s : Store} {t : Trade} {s' : Store}
    (h : Indexed.createTrade s t = .ok s') :
    s'.disk.trades.length = s.disk.trades.length + 1 ∧
    s'.disk.users = s.disk.users ∧
    s'.disk.watchlist = s.disk.watchlist ∧
    s'.disk.alerts = s.disk.alerts ∧
    s'.disk.metrics = s.disk.metrics := by
  rw [Indexed.createTrade, runOp_ok_iff] at h
  obtain ⟨-, -, h⟩ := h
  simp only [] at h
  split at h
  · exact absurd h (by simp)
  · injection h with h
    rw [← h]
    simp

theorem createAlert_ok {s : Store} {a : Alert} {s' : Store}
    (h : Indexed.createAlert s a = .ok s') :
    s'.disk.alerts.length = s.disk.alerts.length + 1 ∧
    s'.disk.users = s.disk.users ∧
    s'.disk.trades = s.disk.trades ∧
    s'.disk.watchlist = s.disk.watchlist ∧
    s'.disk.metrics = s.disk.metrics := by
  rw [Indexed.createAlert, runOp_ok_iff] at h
  obtain ⟨-, -, h⟩ := h
  simp only [] at h
  rcases hid : truthyStr a.id with - | k
  all_goals simp only [hid] at h
  all_goals split at h
  all_goals try split at h
  all_goals first
    | (injection h with h2; rw [← h2]; simp)
    | injection h

theorem addToWatchlist_frames {s : Store} {i : WatchlistItem} {s' : Store}
    (h : Indexed.addToWatchlist s i = .ok s') :
    s'.disk.users = s.disk.users ∧
    s'.disk.trades = s.disk.trades ∧
    s'.disk.alerts = s.disk.alerts ∧
    s'.disk.metrics = s.disk.metrics := by
  rw [Indexed.addToWatchlist, runOp_ok_iff] at h
  obtain ⟨-, -, h⟩ := h
  injection h with h
  rw [← h]
  exact ⟨rfl, rfl, rfl, rfl⟩

theorem savePerformanceMetrics_frames {s : Store} {m : Metrics} {s' : Store}
    (h : Indexed.savePerformanceMetrics s m = .ok s') :
    s'.disk.users = s.disk.users ∧
    s'.disk.trades = s.disk.trades ∧
    s'.disk.watchlist = s.disk.watchlist ∧
    s'.disk.alerts = s.disk.alerts := by
  rw [Indexed.savePerformanceMetrics, runOp_ok_iff] at h
  obtain ⟨-, -, h⟩ := h
  injection h with h
  rw [← h]
  exact ⟨rfl, rfl, rfl, rfl⟩

theorem importUsers_ok (us : List User) : ∀ (s s' : Store),
    Indexed.importUsers s us = .ok s' →
    s'.disk.users.length = s.disk.users.length + us.length ∧
    s'.disk.trades = s.disk.trades ∧
    s'.disk.watchlist = s.disk.watchlist ∧
    s'.disk.alerts = s.disk.alerts ∧
    s'.disk.metrics = s.disk.metrics := by
  induction us with
  | nil =>
      intro s s' h
      simp only [Indexed.importUsers] at h
      injection h with h
      rw [← h]
      simp
  | cons u us ih =>
      intro s s' h
      simp only [Indexed.importUsers] at h
      cases hc : Indexed.createUser s u with
      | error e => rw [hc] at h; simp at h
      | ok s2 =>
          rw [hc] at h
          have h2 : Indexed.importUsers s2 us = .ok s' := h
          obtain ⟨l1, f1, f2, f3, f4⟩ := ih s2 s' h2
          obtain ⟨e1, g1, g2, g3, g4⟩ := createUser_ok hc
          have l2 : s2.disk.users.length = s.disk.users.length + 1 := by
            rw [e1]; simp
          refine ⟨by rw [l1, l2]; simp; omega, by rw [f1, g1],
            by rw [f2, g2], by rw [f3, g3], by rw [f4, g4]⟩

theorem importTrades_ok (ts : List Trade) : ∀ (s s' : Store),
    Indexed.importTrades s ts = .ok s' →
    s'.disk.trades.length = s.disk.trades.length + ts.length ∧
    s'.disk.users = s.disk.users ∧
    s'.disk.watchlist = s.disk.watchlist ∧
    s'.disk.alerts = s.disk.alerts ∧
    s'.disk.metrics = s.disk.metrics := by
  induction ts with
  | nil =>
      intro s s' h
      simp only [Indexed.importTrades] at h
      injection h with h
      rw [← h]
      simp
  | cons t ts ih =>
      intro s s' h
      simp only [Indexed.importTrades] at h
      cases hc : Indexed.createTrade s t with
      | error e => rw [hc] at h; simp at h
      | ok s2 =>
          rw [hc] at h
          have h2 : Indexed.importTrades s2 ts = .ok s' := h
          obtain ⟨l1, f1, f2, f3, f4⟩ := ih s2 s' h2
          obtain ⟨l2, g1, g2, g3, g4⟩ := createTrade_ok hc
          refine ⟨by rw [l1, l2]; simp; omega, by rw [f1, g1],
            by rw [f2, g2], by rw [f3, g3], by rw [f4, g4]⟩

theorem importAlerts_ok (as_ : List Alert) : ∀ (s s' : Store),
    Indexed.importAlerts s as_ = .ok s' →
    s'.disk.alerts.length = s.disk.alerts.length + as_.length ∧
    s'.disk.users = s.disk.users ∧
    s'.disk.trades = s.disk.trades ∧
    s'.disk.watchlist = s.disk.watchlist ∧
    s'.disk.metrics = s.disk.metrics := by
  induction as_ with
  | nil =>
      intro s s' h
      simp only [Indexed.importAlerts] at h
      injection h with h
      rw [← h]
      simp
  | cons a as_ ih =>
      intro s s' h
      simp only [Indexed.importAlerts] at h
      cases hc : Indexed.createAlert s a with
      | error e => rw [hc] at h; simp at h
      | ok s2 =>
          rw [hc] at h
          have h2 : Indexed.importAlerts s2 as_ = .ok s' := h
          obtain ⟨l1, f1, f2, f3, f4⟩ := ih s2 s' h2
          obtain ⟨l2, g1, g2, g3, g4⟩ := createAlert_ok hc
          refine ⟨by rw [l1, l2]; simp; omega, by rw [f1, g1],
            by rw [f2, g2], by rw [f3, g3], by rw [f4, g4]⟩

theorem importWatchlist_ok (ws : List WatchlistItem) : ∀ (s s' : Store),
    (∀ w ∈ ws, ∃ k, w.id = some k ∧ ¬ k = "") →
    (∀ w ∈ ws, ∀ r ∈ s.disk.watchlist, ¬ w.id = some r.id) →
    ((ws.map WatchlistItem.id).Nodup) →
    Indexed.importWatchlist s ws = .ok s' →
    s'.disk.watchlist.length = s.disk.watchlist.length + ws.length ∧
    s'.disk.users = s.disk.users ∧
    s'.disk.trades = s.disk.trades ∧
    s'.disk.alerts = s.disk.alerts ∧
    s'.disk.metrics = s.disk.metrics ∧
    (∀ r ∈ s'.disk.watchlist,
      r ∈ s.disk.watchlist ∨ some r.id ∈ ws.map WatchlistItem.id) := by
  induction ws with
  | nil =>
      intro s s' _ _ _ h
      simp only [Indexed.importWatchlist] at h
      injection h with h
      rw [← h]
      simp
  | cons w ws ih =>
      intro s s' hids hdisj hnodup h
      simp only [Indexed.importWatchlist] at h
      cases hc : Indexed.addToWatchlist s w with
      | error e => rw [hc] at h; simp at h
      | ok s2 =>
          rw [hc] at h
          have h2 : Indexed.importWatchlist s2 ws = .ok s' := h
          obtain ⟨k, hk, hkne⟩ := hids w (List.mem_cons_self w ws)
          obtain ⟨row, hrowid, -, hw2⟩ :=
            addToWatchlist_ok_row s w k hkne hk s2 hc
          have hkeep : s.disk.watchlist.filter
              (fun r => decide (¬ r.id = k)) = s.disk.watchlist := by
            apply List.filter_eq_self.2
            intro r hr
            have := hdisj w (List.mem_cons_self w ws) r hr
            rw [hk] at this
            simp only [decide_eq_true_eq]
            intro heq
            exact this (by rw [heq])
          rw [hkeep] at hw2
          have hnodupc : (w.id :: ws.map WatchlistItem.id).Nodup := hnodup
          obtain ⟨hnin, hnodup2⟩ := List.nodup_cons.1 hnodupc
          have hdisj2 : ∀ w2 ∈ ws, ∀ r ∈ s2.disk.watchlist,
              ¬ w2.id = some r.id := by
            intro w2 hw2mem r hr
            rw [hw2] at hr
            rcases List.mem_append.1 hr with hmem | hmem
            · exact hdisj w2 (List.mem_cons_of_mem w hw2mem) r hmem
            · simp only [List.mem_singleton] at hmem
              subst hmem
              rw [hrowid, ← hk]
              intro heq
              exact hnin (by rw [← heq]; exact List.mem_map_of_mem _ hw2mem)
          obtain ⟨l1, f1, f2, f3, f4, hsub⟩ :=
            ih s2 s' (fun w2 hm => hids w2 (List.mem_cons_of_mem w hm))
              hdisj2 hnodup2 h2
          have l2 : s2.disk.watchlist.length = s.disk.watchlist.length + 1 := by
            rw [hw2]; simp
          have g1 := addToWatchlist_frames hc
          refine ⟨by rw [l1, l2]; simp; omega, by rw [f1, g1.1],
            by rw [f2, g1.2.1], by rw [f3, g1.2.2.1],
            by rw [f4, g1.2.2.2], ?_⟩
          intro r hr
          rcases hsub r hr with hmem | hmem
          · rw [hw2] at hmem
            rcases List.mem_append.1 hmem with hmem2 | hmem2
            · exact Or.inl hmem2
            · simp only [List.mem_singleton] at hmem2
              subst hmem2
              refine Or.inr ?_
              rw [hrowid, ← hk]
              simp
          · refine Or.inr ?_
            simp only [List.map_cons, List.mem_cons]
            exact Or.inr hmem

theorem importMetrics_ok (ms : List MetricRow) : ∀ (s s' : Store),
    (∀ r ∈ s.disk.metrics, ∀ c, s.uuidCtr ≤ c → ¬ r.id = genId c) →
    Indexed.importMetrics s ms = .ok s' →
    s'.disk.metrics.length = s.disk.metrics.length + ms.length ∧
    s'.disk.users = s.disk.users ∧
    s'.disk.trades = s.disk.trades ∧
    s'.disk.watchlist = s.disk.watchlist ∧
    s'.disk.alerts = s.disk.alerts := by
  induction ms with
  | nil =>
      intro s s' _ h
      simp only [Indexed.importMetrics] at h
      injection h with h
      rw [← h]
      simp
  | cons m ms ih =>
      intro s s' hfresh h
      simp only [Indexed.importMetrics] at h
      cases hc : Indexed.savePerformanceMetrics s (Indexed.metricRowToInput m) with
      | error e => rw [hc] at h; simp at h
      | ok s2 =>
          rw [hc] at h
          have h2 : Indexed.importMetrics s2 ms = .ok s' := h
          obtain ⟨row, hrowid, -, hctr, hm2⟩ :=
            savePerformanceMetrics_ok_row s (Indexed.metricRowToInput m) s2 hc
          have hkeep : s.disk.metrics.filter
              (fun r => decide (¬ r.id = genId s.uuidCtr)) =
              s.disk.metrics := by
            apply List.filter_eq_self.2
            intro r hr
            simp only [decide_eq_true_eq]
            exact hfresh r hr s.uuidCtr (Nat.le_refl _)
          rw [hkeep] at hm2
          have hfresh2 : ∀ r ∈ s2.disk.metrics, ∀ c, s2.uuidCtr ≤ c →
              ¬ r.id = genId c := by
            intro r hr c hle
            rw [hctr] at hle
            rw [hm2] at hr
            rcases List.mem_append.1 hr with hmem | hmem
            · exact hfresh r hmem c (by omega)
            · simp only [List.mem_singleton] at hmem
              subst hmem
              rw [hrowid]
              intro heq
              have := genId_inj heq
              omega
          obtain ⟨l1, f1, f2, f3, f4⟩ := ih s2 s' hfresh2 h2
          have l2 : s2.disk.metrics.length = s.disk.metrics.length + 1 := by
            rw [hm2]; simp
          have g1 := savePerformanceMetrics_frames hc
          refine ⟨by rw [l1, l2]; simp; omega, by rw [f1, g1.1],
            by rw [f2, g1.2.1], by rw [f3, g1.2.2.1], by rw [f4, g1.2.2.2]⟩

/-- Claim C6 (confirmed): `importData` first deletes every row of all
five tables and re-inserts each snapshot record through the normal
per-entity create path; when `exportData` is immediately followed by
`importData` of the returned snapshot and every re-insert succeeds, each
table ends with exactly the row count it had at export time.  (The two
extra hypotheses are invariants of every reachable watchlist table: its
primary keys are distinct, and none of them is the empty string.) -/
theorem export_import_preserves_counts (s : Store) (snap : Snapshot)
    (s' : Store)
    (hexp : Indexed.exportData s = .ok snap)
    (himp : Indexed.importData s snap = .ok s')
    (hwids : (s.disk.watchlist.map WatchRow.id).Nodup)
    (hwne : ∀ r ∈ s.disk.watchlist, ¬ r.id = "") :
    s'.disk.users.length = s.disk.users.length ∧
    s'.disk.trades.length = s.disk.trades.length ∧
    s'.disk.watchlist.length = s.disk.watchlist.length ∧
    s'.disk.alerts.length = s.disk.alerts.length ∧
    s'.disk.metrics.length = s.disk.metrics.length := by
  rw [Indexed.importData, runOp_ok_iff] at himp
  obtain ⟨hc, he, hbody⟩ := himp
  have hsnap := exportData_eq s hc he
  rw [hexp] at hsnap
  injection hsnap with hsnap
  have hUsers : snap.users = s.disk.users.map decodeUserRow := by rw [hsnap]
  have hTrades : snap.trades =
      (sortDescBy TradeRow.entryDate s.disk.trades).map decodeTradeRow := by
    rw [hsnap]
  have hWatch : snap.watchlist =
      (sortDescBy WatchRow.addedAt s.disk.watchlist).map decodeWatchRow := by
    rw [hsnap]
  have hAlerts : snap.alerts =
      (sortDescBy AlertRow.createdAt s.disk.alerts).map decodeAlertRow := by
    rw [hsnap]
  have hMetrics : snap.performanceMetrics =
      sortDescBy MetricRow.date s.disk.metrics := by rw [hsnap]
  cases hiu : Indexed.importUsers
      { s with
        disk := { s.disk with
          users := [], trades := [], watchlist := [], alerts := [],
          metrics := [] } } snap.users with
  | error e => rw [hiu] at hbody; simp at hbody
  | ok s1 =>
  rw [hiu] at hbody
  simp only [] at hbody
  cases hit : Indexed.importTrades s1 snap.trades with
  | error e => rw [hit] at hbody; simp at hbody
  | ok s2 =>
  rw [hit] at hbody
  simp only [] at hbody
  cases hiw : Indexed.importWatchlist s2 snap.watchlist with
  | error e => rw [hiw] at hbody; simp at hbody
  | ok s3 =>
  rw [hiw] at hbody
  simp only [] at hbody
  cases hia : Indexed.importAlerts s3 snap.alerts with
  | error e => rw [hia] at hbody; simp at hbody
  | ok s4 =>
  rw [hia] at hbody
  simp only [] at hbody
  obtain ⟨u1, uf1, uf2, uf3, uf4⟩ := importUsers_ok snap.users _ s1 hiu
  obtain ⟨t1, tf1, tf2, tf3, tf4⟩ := importTrades_ok snap.trades s1 s2 hit
  have hwl2 : s2.disk.watchlist = [] := by rw [tf2, uf2]
  have hids : ∀ w ∈ snap.watchlist, ∃ k, w.id = some k ∧ ¬ k = "" := by
    rw [hWatch]
    intro w hw
    obtain ⟨r, hr, hdec⟩ := List.mem_map.1 hw
    exact ⟨r.id, by rw [← hdec]; rfl, hwne r (mem_sortDescBy.1 hr)⟩
  have hdisj : ∀ w ∈ snap.watchlist, ∀ r ∈ s2.disk.watchlist,
      ¬ w.id = some r.id := by
    intro w _ r hr
    rw [hwl2] at hr
    exact absurd hr (List.not_mem_nil r)
  have hnodup : (snap.watchlist.map WatchlistItem.id).Nodup := by
    rw [hWatch, List.map_map]
    rw [List.Perm.nodup_iff (((sortDescBy_perm WatchRow.addedAt
      s.disk.watchlist)).map (WatchlistItem.id ∘ decodeWatchRow))]
    rw [show (WatchlistItem.id ∘ decodeWatchRow) =
      Option.some ∘ WatchRow.id from rfl, ← List.map_map]
    exact hwids.map (Option.some_injective _)
  obtain ⟨w1, wfu, wft, wfa, wfm, -⟩ :=
    importWatchlist_ok snap.watchlist s2 s3 hids hdisj hnodup hiw
  obtain ⟨a1, afu, aft, afw, afm⟩ := importAlerts_ok snap.alerts s3 s4 hia
  have hm4 : s4.disk.metrics = [] := by rw [afm, wfm, tf4, uf4]
  have hfresh : ∀ r ∈ s4.disk.metrics, ∀ c, s4.uuidCtr ≤ c →
      ¬ r.id = genId c := by
    intro r hr
    rw [hm4] at hr
    exact absurd hr (List.not_mem_nil r)
  obtain ⟨m1, mfu, mft, mfw, mfa⟩ :=
    importMetrics_ok snap.performanceMetrics s4 s' hfresh hbody
  refine ⟨?_, ?_, ?_, ?_, ?_⟩
  · rw [mfu, afu, wfu, tf1, u1]
    simp [hUsers]
  · rw [mft, aft, wft, t1, uf1]
    simp [hTrades, sortDescBy_length]
  · rw [mfw, afw, w1, hwl2]
    simp [hWatch, sortDescBy_length]
  · rw [mfa, a1, wfa, tf3, uf3]
    simp [hAlerts, sortDescBy_length]
  · rw [m1, hm4]
    simp [hMetrics, sortDescBy_length]

/-- Sample stored watchlist row. -/
def sampleWatchRow : WatchRow :=
  { id := "w1", symbol := "TSLA", name := none, currentPrice := none,
    change := none, changePercent := none, addedAt := "2024-01-03" }

/-- Sample stored alert row. -/
def sampleAlertRow : AlertRow :=
  { id := "a1", symbol := "TSLA", type := "price", condition := "above",
    value := "300", message := "price alert", isActive := 1,
    createdAt := "2024-01-04" }

/-- Sample stored performance-metrics row. -/
def sampleMetricRow : MetricRow :=
  { id := "m1", date := "2024-01-05", totalTrades := 1, winningTrades := 1,
    losingTrades := 0, totalProfit := 100, totalLoss := 0, winRate := 100,
    profitFactor := 2, averageWin := 100, averageLoss := 0,
    maxDrawdown := 10, sharpe := 1, createdAt := "2024-01-05" }

/-- Initialized store holding one row in every table. -/
def c6Store : Store :=
  openStore { emptyDisk with
    users := [sampleUserRow], trades := [sampleTradeRow],
    watchlist := [sampleWatchRow], alerts := [sampleAlertRow],
    metrics := [sampleMetricRow] }

/-- Fallback snapshot. -/
def emptySnap : Snapshot :=
  { version := "", exportDate := "", users := [], trades := [],
    watchlist := [], alerts := [], performanceMetrics := [] }

/-- Snapshot produced by exporting `c6Store`. -/
def c6Snap : Snapshot :=
  (Indexed.exportData c6Store).toOption.getD emptySnap

/-- Store after re-importing the exported snapshot. -/
def c6After : Store :=
  (Indexed.importData c6Store c6Snap).toOption.getD uninitStore

/-- Witness for C6 at the concrete one-row-per-table store. -/
theorem export_import_preserves_counts_witness :
    c6After.disk.users.length = c6Store.disk.users.length ∧
    c6After.disk.trades.length = c6Store.disk.trades.length ∧
    c6After.disk.watchlist.length = c6Store.disk.watchlist.length ∧
    c6After.disk.alerts.length = c6Store.disk.alerts.length ∧
    c6After.disk.metrics.length = c6Store.disk.metrics.length :=
  export_import_preserves_counts c6Store c6Snap c6After rfl rfl
    (by decide) (by decide)
